import Mathlib

/-!
Verification of the XRA-Assessment repository against its specification.

The repository holds three self-contained Python scripts:
* `src/Q3/time_service.py` — a one-endpoint Flask service returning the
  current server date and time;
* `src/Q1/ascii_draw.py` — an ASCII hollow-rectangle drawer;
* `src/Q2/db_access.py` — a PostgreSQL employee-table console tool.

Each script is shallowly embedded below: pure fragments become Lean
functions, the clock read and the database transaction become explicit
parameters, and the Flask routing/serialisation boundary is modelled from
the framework's documented behaviour applied to the route declarations
that appear in the source.
-/

namespace TimeService

/-- A wall-clock instant as carried by a Python `datetime` value: the
fields `datetime.now()` exposes that the handler's two `strftime` calls
consume (`%Y-%m-%d` and `%H:%M:%S`). -/
structure DateTime where
  year : Nat
  month : Nat
  day : Nat
  hour : Nat
  minute : Nat
  second : Nat
deriving DecidableEq, Repr

/-- Gregorian leap-year rule, as guaranteed by Python `datetime`. -/
def isLeapYear (y : Nat) : Bool :=
  (y % 4 == 0 && y % 100 != 0) || y % 400 == 0

/-- Number of days in month `m` of year `y` (Gregorian calendar). -/
def daysInMonth (y m : Nat) : Nat :=
  if m = 2 then (if isLeapYear y then 29 else 28)
  else if m = 4 ∨ m = 6 ∨ m = 9 ∨ m = 11 then 30
  else 31

/-- The invariants Python's `datetime` maintains on every value it can
produce, hence on every clock value the handler may observe. -/
def ValidDateTime (dt : DateTime) : Prop :=
  1 ≤ dt.year ∧ dt.year ≤ 9999 ∧
  1 ≤ dt.month ∧ dt.month ≤ 12 ∧
  1 ≤ dt.day ∧ dt.day ≤ daysInMonth dt.year dt.month ∧
  dt.hour ≤ 23 ∧ dt.minute ≤ 59 ∧ dt.second ≤ 59

instance : DecidablePred ValidDateTime := fun dt => by
  unfold ValidDateTime; infer_instance

/-- The character for decimal digit `d`. -/
def digitChar (d : Nat) : Char := Char.ofNat (48 + d)

/-- Two-digit zero-padded decimal rendering (`%m`, `%d`, `%H`, `%M`, `%S`). -/
def pad2 (n : Nat) : List Char := [digitChar (n / 10), digitChar (n % 10)]

/-- Four-digit zero-padded decimal rendering (`%Y`, per the documented
`strftime` format table). -/
def pad4 (n : Nat) : List Char :=
  [digitChar (n / 1000), digitChar (n / 100 % 10),
   digitChar (n / 10 % 10), digitChar (n % 10)]

/-- `strftime("%Y-%m-%d")` applied to the captured instant
(`time_service.py` line 11). -/
def formatDate (dt : DateTime) : String :=
  String.mk (pad4 dt.year ++ ['-'] ++ pad2 dt.month ++ ['-'] ++ pad2 dt.day)

/-- `strftime("%H:%M:%S")` applied to the captured instant
(`time_service.py` line 12). -/
def formatTime (dt : DateTime) : String :=
  String.mk (pad2 dt.hour ++ [':'] ++ pad2 dt.minute ++ [':'] ++ pad2 dt.second)

/-- JSON values, the codomain of Flask's response serialiser. -/
inductive Json where
  | str : String → Json
  | num : Int → Json
  | arr : List Json → Json
  | obj : List (String × Json) → Json

/-- An HTTP response: status code, content type and JSON body. -/
structure Response where
  status : Nat
  contentType : String
  body : Json

/-- The `/time` view function (`time_service.py` lines 8-13): one clock
read, two `strftime` derivations from that single instant, and
`jsonify` applied to TWO positional single-key dicts — which Flask
serialises as a two-element JSON array — with status 200 and content
type `application/json`. -/
def get_current_time_date (now : DateTime) : Response :=
  let current_date := formatDate now
  let current_time := formatTime now
  { status := 200
    contentType := "application/json"
    body := Json.arr [Json.obj [("current_date", Json.str current_date)],
                      Json.obj [("current_time", Json.str current_time)]] }

/-- Decimal value of a two-character ASCII digit pair. -/
def parse2 (c1 c2 : Char) : Nat := (c1.toNat - 48) * 10 + (c2.toNat - 48)

/-- Decimal value of a four-character ASCII digit group. -/
def parse4 (c1 c2 c3 c4 : Char) : Nat :=
  ((parse2 c1 c2) * 10 + (c3.toNat - 48)) * 10 + (c4.toNat - 48)

/-- Checks that a string matches `YYYY-MM-DD` with month in 01-12 and a
day valid for that month of that year. -/
def validDateString (s : String) : Bool :=
  match s.data with
  | [y1, y2, y3, y4, sep1, m1, m2, sep2, d1, d2] =>
    y1.isDigit && y2.isDigit && y3.isDigit && y4.isDigit &&
    m1.isDigit && m2.isDigit && d1.isDigit && d2.isDigit &&
    (sep1 == '-') && (sep2 == '-') &&
    decide (1 ≤ parse2 m1 m2) && decide (parse2 m1 m2 ≤ 12) &&
    decide (1 ≤ parse2 d1 d2) &&
    decide (parse2 d1 d2 ≤ daysInMonth (parse4 y1 y2 y3 y4) (parse2 m1 m2))
  | _ => false

/-- Checks that a string matches `HH:MM:SS` with HH in 00-23 and MM, SS
in 00-59. -/
def validTimeString (s : String) : Bool :=
  match s.data with
  | [h1, h2, sep1, m1, m2, sep2, s1, s2] =>
    h1.isDigit && h2.isDigit && m1.isDigit && m2.isDigit &&
    s1.isDigit && s2.isDigit &&
    (sep1 == ':') && (sep2 == ':') &&
    decide (parse2 h1 h2 ≤ 23) && decide (parse2 m1 m2 ≤ 59) &&
    decide (parse2 s1 s2 ≤ 59)
  | _ => false

/-- Field lookup in a JSON object's field list. -/
def lookupField : List (String × Json) → String → Option Json
  | [], _ => none
  | (k, v) :: rest, key => if k = key then some v else lookupField rest key

/-- Finds a named field in a JSON body: directly in an object, or inside
any object element of a top-level array (the shape Flask produces for a
multi-argument `jsonify`). -/
def findField (j : Json) (key : String) : Option Json :=
  match j with
  | Json.obj fs => lookupField fs key
  | Json.arr items =>
      items.foldr (fun item acc =>
        match item with
        | Json.obj fs => (lookupField fs key).orElse (fun _ => acc)
        | _ => acc) none
  | _ => none

/-- All field names appearing in a JSON body, in order: the names of an
object, or the names of every object element of a top-level array. -/
def fieldNames (j : Json) : List String :=
  match j with
  | Json.obj fs => fs.map Prod.fst
  | Json.arr items =>
      items.foldr (fun item acc =>
        (match item with
         | Json.obj fs => fs.map Prod.fst
         | _ => []) ++ acc) []
  | _ => []

/-- Flask's framework-default error responses and the automatic response
to `OPTIONS`, modelled from the framework's documented behaviour (these
responses are produced by Flask itself, not by repository code). -/
def notFoundResponse : Response :=
  { status := 404, contentType := "text/html", body := Json.str "Not Found" }

/-- Flask's default 405 response for a method not allowed on a matched
route. -/
def methodNotAllowedResponse : Response :=
  { status := 405, contentType := "text/html",
    body := Json.str "Method Not Allowed" }

/-- Flask's automatic `OPTIONS` response for a registered route. -/
def autoOptionsResponse : Response :=
  { status := 200, contentType := "text/html", body := Json.str "" }

/-- Flask's default 500 response for an unhandled exception in a view. -/
def internalErrorResponse : Response :=
  { status := 500, contentType := "text/html",
    body := Json.str "Internal Server Error" }

/-- Flask request dispatch for this app: the single registered rule is
`/time` with `methods=['GET']` (line 7); Flask additionally registers
`HEAD` (served by the `GET` view, the body stripped by the server) and
answers `OPTIONS` automatically without running the view. The returned
flag records whether the view function ran. -/
def dispatch (path method : String) (now : DateTime) : Bool × Response :=
  if path = "/time" then
    if method = "GET" ∨ method = "HEAD" then (true, get_current_time_date now)
    else if method = "OPTIONS" then (false, autoOptionsResponse)
    else (false, methodNotAllowedResponse)
  else (false, notFoundResponse)

/-- The possible failure of the clock read inside the view. -/
inductive ClockError where
  | readFailure
deriving DecidableEq, Repr

/-- Request handling at the server-framework boundary: a successful clock
read flows into the view; an exception escaping the view is surfaced by
Flask as its generic 500 response, with no retry. -/
def handleRequest (clock : Except ClockError DateTime) : Response :=
  match clock with
  | Except.ok now => get_current_time_date now
  | Except.error _ => internalErrorResponse

/-- Listener configuration, from `app.run(host='0.0.0.0', port=8080)`
(`time_service.py` line 17). -/
structure ServerConfig where
  host : String
  port : Nat
deriving DecidableEq, Repr

/-- The configuration the process starts with. -/
def runConfig : ServerConfig := { host := "0.0.0.0", port := 8080 }

/-- Process-wide service state: the route table built at import time.
The module defines no other module-level mutable binding. -/
structure ServiceState where
  routes : List (String × List String)
deriving DecidableEq, Repr

/-- State after `@app.route('/time', methods=['GET'])` has registered the
single rule. -/
def initialState : ServiceState := { routes := [("/time", ["GET"])] }

/-- One request handled by the service: the response is computed from the
path, method and clock alone, and the service state is passed through. -/
def serviceStep (s : ServiceState) (path method : String) (now : DateTime) :
    ServiceState × Response :=
  (s, (dispatch path method now).2)

/-- A well-formed time snapshot response: status 200, JSON content type,
and both fields present with values passing the date/time validity
checks. -/
def wellFormedSnapshot (r : Response) : Prop :=
  r.status = 200 ∧ r.contentType = "application/json" ∧
  ∃ d t : String,
    findField r.body "current_date" = some (Json.str d) ∧
    validDateString d = true ∧
    findField r.body "current_time" = some (Json.str t) ∧
    validTimeString t = true

/-- The clock frozen at 2030-01-01T00:00:00 (spec end-to-end scenario). -/
def frozen2030 : DateTime := ⟨2030, 1, 1, 0, 0, 0⟩

/-- The clock frozen at 2024-03-01T23:59:59 (spec consistency test). -/
def frozen2024 : DateTime := ⟨2024, 3, 1, 23, 59, 59⟩

end TimeService

namespace AsciiDraw

/-- The rendering loop of `draw_rectangle` (`ascii_draw.py` lines 20-26):
row `j` of `height`, column `i` of `width`, printing `ch` on the border
(first or last row, first or last column) and a space elsewhere. Each
inner list is one printed line. -/
def render (width height : Nat) (ch : Char) : List (List Char) :=
  (List.range height).map (fun j =>
    (List.range width).map (fun i =>
      if j = 0 ∨ j = height - 1 ∨ i = 0 ∨ i = width - 1 then ch else ' '))

end AsciiDraw

namespace DbAccess

/-- A row of the `employees` table as inserted by the script (the serial
`id` is assigned by the database and not governed by the claim). -/
structure Employee where
  name : String
  department : String
deriving DecidableEq, Repr

/-- A psycopg2 connection's transactional view of the `employees` table:
`committed` is the durable table state, `pending` the state seen inside
the connection's current transaction. -/
structure Conn where
  committed : List Employee
  pending : List Employee
deriving DecidableEq, Repr

/-- `cursor.execute` of the parameterized INSERT: appends the row inside
the current transaction. -/
def execInsert (c : Conn) (e : Employee) : Conn :=
  { c with pending := c.pending ++ [e] }

/-- `connection.commit()`: makes the transaction's state durable. -/
def commitTxn (c : Conn) : Conn := { c with committed := c.pending }

/-- `connection.rollback()`: discards the transaction's changes. -/
def rollbackTxn (c : Conn) : Conn := { c with pending := c.committed }

/-- Where, if anywhere, the database raises `psycopg2.Error` during
`insert_employee`: nowhere, at `cursor.execute`, or at `commit`. -/
inductive DBOutcome where
  | ok
  | failExec
  | failCommit
deriving DecidableEq, Repr

/-- `insert_employee` (`db_access.py` lines 104-136): execute the INSERT
then commit and return `True`; on a database error at either step, the
`except` branch calls `rollback()` and returns `False`. -/
def insert_employee (c : Conn) (name department : String) (out : DBOutcome) :
    Conn × Bool :=
  match out with
  | DBOutcome.ok => (commitTxn (execInsert c ⟨name, department⟩), true)
  | DBOutcome.failExec => (rollbackTxn c, false)
  | DBOutcome.failCommit => (rollbackTxn (execInsert c ⟨name, department⟩), false)

end DbAccess

namespace TimeService

lemma digitChar_isDigit {d : Nat} (h : d < 10) : (digitChar d).isDigit = true := by
  interval_cases d <;> decide

lemma digitChar_toNat {d : Nat} (h : d < 10) : (digitChar d).toNat = 48 + d := by
  interval_cases d <;> decide

lemma parse2_digitChar (a b : Nat) (ha : a < 10) (hb : b < 10) :
    parse2 (digitChar a) (digitChar b) = a * 10 + b := by
  unfold parse2
  rw [digitChar_toNat ha, digitChar_toNat hb]
  omega

lemma parse2_pad2 (n : Nat) (hn : n < 100) :
    parse2 (digitChar (n / 10)) (digitChar (n % 10)) = n := by
  rw [parse2_digitChar _ _ (by omega) (Nat.mod_lt _ (by norm_num))]
  omega

lemma parse4_pad4 (y : Nat) (hy : y < 10000) :
    parse4 (digitChar (y / 1000)) (digitChar (y / 100 % 10))
      (digitChar (y / 10 % 10)) (digitChar (y % 10)) = y := by
  unfold parse4
  rw [parse2_digitChar _ _ (by omega) (Nat.mod_lt _ (by norm_num)),
      digitChar_toNat (Nat.mod_lt _ (by norm_num)),
      digitChar_toNat (Nat.mod_lt _ (by norm_num))]
  omega

lemma daysInMonth_le (y m : Nat) : daysInMonth y m ≤ 31 := by
  unfold daysInMonth
  split
  · split <;> omega
  · split <;> omega

/-- The date `strftime` output always passes the `YYYY-MM-DD` validity
check, for every clock value the `datetime` invariants allow. -/
lemma validDateString_formatDate (dt : DateTime) (h : ValidDateTime dt) :
    validDateString (formatDate dt) = true := by
  obtain ⟨h1, h2, h3, h4, h5, h6, h7, h8, h9⟩ := h
  have hday : dt.day < 100 := lt_of_le_of_lt (h6.trans (daysInMonth_le _ _)) (by norm_num)
  simp only [formatDate, pad4, pad2, List.cons_append, List.nil_append]
  simp only [validDateString]
  rw [parse2_pad2 dt.month (by omega), parse2_pad2 dt.day hday,
      parse4_pad4 dt.year (by omega)]
  simp only [Bool.and_eq_true, decide_eq_true_eq, beq_self_eq_true, and_true, true_and]
  repeat' apply And.intro
  all_goals
    first
      | exact digitChar_isDigit (by omega)
      | exact digitChar_isDigit (Nat.mod_lt _ (by norm_num))
      | omega

/-- The time `strftime` output always passes the `HH:MM:SS` validity
check, for every clock value the `datetime` invariants allow. -/
lemma validTimeString_formatTime (dt : DateTime) (h : ValidDateTime dt) :
    validTimeString (formatTime dt) = true := by
  obtain ⟨h1, h2, h3, h4, h5, h6, h7, h8, h9⟩ := h
  simp only [formatTime, pad2, List.cons_append, List.nil_append]
  simp only [validTimeString]
  rw [parse2_pad2 dt.hour (by omega), parse2_pad2 dt.minute (by omega),
      parse2_pad2 dt.second (by omega)]
  simp only [Bool.and_eq_true, decide_eq_true_eq, beq_self_eq_true, and_true, true_and]
  repeat' apply And.intro
  all_goals
    first
      | exact digitChar_isDigit (by omega)
      | exact digitChar_isDigit (Nat.mod_lt _ (by norm_num))
      | omega

end TimeService

namespace TimeService

/-- C1: the claim says the `GET /time` body at a clock frozen at
2030-01-01T00:00:00 is the single two-key object with `current_date`
and `current_time`. The code's `jsonify` call receives two positional
single-key dicts, so the body is a two-element array of single-key
objects — not an object at all. -/
theorem time_body_not_single_object :
    (get_current_time_date frozen2030).body =
      Json.arr [Json.obj [("current_date", Json.str "2030-01-01")],
                Json.obj [("current_time", Json.str "00:00:00")]] ∧
    (get_current_time_date frozen2030).body ≠
      Json.obj [("current_date", Json.str "2030-01-01"),
                ("current_time", Json.str "00:00:00")] := by
  constructor
  · rfl
  · intro h
    exact Json.noConfusion h

/-- C1 (amended): at a clock frozen at 2030-01-01T00:00:00, `GET /time`
returns status 200, content type `application/json`, and a body equal to
the two-element JSON array holding the single-key object for
`current_date` followed by the single-key object for `current_time`,
with the claimed string values. -/
theorem time_response_two_object_array :
    get_current_time_date frozen2030 =
      { status := 200
        contentType := "application/json"
        body := Json.arr [Json.obj [("current_date", Json.str "2030-01-01")],
                          Json.obj [("current_time", Json.str "00:00:00")]] } := rfl

/-- C2: the view captures one clock instant and derives both strings from
that single instant, so for every instant both body fields are the
formats of the same `now`; at the clock frozen at 2024-03-01T23:59:59
the returned fields are "2024-03-01" and "23:59:59". -/
theorem single_instant_consistency :
    (∀ now : DateTime,
      (get_current_time_date now).body =
        Json.arr [Json.obj [("current_date", Json.str (formatDate now))],
                  Json.obj [("current_time", Json.str (formatTime now))]]) ∧
    findField (get_current_time_date frozen2024).body "current_date" =
      some (Json.str "2024-03-01") ∧
    findField (get_current_time_date frozen2024).body "current_time" =
      some (Json.str "23:59:59") :=
  ⟨fun _ => rfl, rfl, rfl⟩

/-- C3: for every clock value the handler may observe (every value
satisfying the `datetime` invariants), the produced date string matches
`YYYY-MM-DD` with month 01-12 and a day valid for that month, and the
produced time string matches `HH:MM:SS` with HH in 00-23 and MM, SS in
00-59. -/
theorem formatted_strings_valid (dt : DateTime) (h : ValidDateTime dt) :
    validDateString (formatDate dt) = true ∧
    validTimeString (formatTime dt) = true :=
  ⟨validDateString_formatDate dt h, validTimeString_formatTime dt h⟩

/-- Witness for C3 at the concrete instant 2024-03-01T23:59:59. -/
theorem formatted_strings_valid_witness :
    ValidDateTime frozen2024 ∧
    (validDateString (formatDate frozen2024) = true ∧
     validTimeString (formatTime frozen2024) = true) :=
  ⟨by decide, formatted_strings_valid frozen2024 (by decide)⟩

/-- C4: every `GET /time` response has status 200, contains the fields
`current_date` and `current_time` with non-empty string values, and the
field names (and string types) of the body are identical across calls,
whatever the two clock values. -/
theorem time_response_status_and_shape (now now2 : DateTime) :
    (get_current_time_date now).status = 200 ∧
    findField (get_current_time_date now).body "current_date" =
      some (Json.str (formatDate now)) ∧
    formatDate now ≠ "" ∧
    findField (get_current_time_date now).body "current_time" =
      some (Json.str (formatTime now)) ∧
    formatTime now ≠ "" ∧
    fieldNames (get_current_time_date now).body =
      fieldNames (get_current_time_date now2).body := by
  refine ⟨rfl, rfl, ?_, rfl, ?_, rfl⟩
  · intro hcontra
    have hdata : (formatDate now).data = ("" : String).data := by rw [hcontra]
    simp [formatDate, pad4, pad2] at hdata
  · intro hcontra
    have hdata : (formatTime now).data = ("" : String).data := by rw [hcontra]
    simp [formatTime, pad2] at hdata

end TimeService

namespace TimeService

/-- C5: for every request whose path is not `/time`, the view function
does not run and the response is the framework's default 404, hence
non-200 — whatever the method and clock value. -/
theorem unmatched_route_default_404 (path method : String) (now : DateTime)
    (h : path ≠ "/time") :
    (dispatch path method now).1 = false ∧
    (dispatch path method now).2 = notFoundResponse ∧
    (dispatch path method now).2.status = 404 ∧
    (dispatch path method now).2.status ≠ 200 := by
  refine ⟨?_, ?_, ?_, ?_⟩ <;> simp [dispatch, h, notFoundResponse]

/-- Witness for C5 at the concrete request `GET /unknown`. -/
theorem unmatched_route_default_404_witness :
    ("/unknown" : String) ≠ "/time" ∧
    ((dispatch "/unknown" "GET" frozen2030).1 = false ∧
     (dispatch "/unknown" "GET" frozen2030).2 = notFoundResponse ∧
     (dispatch "/unknown" "GET" frozen2030).2.status = 404 ∧
     (dispatch "/unknown" "GET" frozen2030).2.status ≠ 200) :=
  ⟨by decide, unmatched_route_default_404 "/unknown" "GET" frozen2030 (by decide)⟩

/-- C6: for every successful clock read the view returns a well-formed
snapshot (it cannot fail), and an exception escaping the view — such as
a clock-read failure — is surfaced at the framework boundary as the
single generic 500 response, with no retry and no partial response. -/
theorem view_cannot_fail_and_boundary_500 :
    (∀ now : DateTime, ValidDateTime now →
      handleRequest (Except.ok now) = get_current_time_date now ∧
      wellFormedSnapshot (get_current_time_date now)) ∧
    (∀ e : ClockError,
      handleRequest (Except.error e) = internalErrorResponse ∧
      (handleRequest (Except.error e)).status = 500) := by
  constructor
  · intro now h
    exact ⟨rfl, rfl, rfl, formatDate now, formatTime now, rfl,
      validDateString_formatDate now h, rfl, validTimeString_formatTime now h⟩
  · intro e
    exact ⟨rfl, rfl⟩

/-- Witness for C6 at the concrete instant 2030-01-01T00:00:00. -/
theorem view_cannot_fail_witness :
    ValidDateTime frozen2030 ∧
    (handleRequest (Except.ok frozen2030) = get_current_time_date frozen2030 ∧
     wellFormedSnapshot (get_current_time_date frozen2030)) :=
  ⟨by decide, view_cannot_fail_and_boundary_500.1 frozen2030 (by decide)⟩

/-- C7: the process listens on all interfaces (`0.0.0.0`) at fixed port
8080, and handling a request leaves the service state untouched: the
state passes through unchanged and the response does not depend on it. -/
theorem bind_config_and_stateless (s s2 : ServiceState) (path method : String)
    (now : DateTime) :
    runConfig.host = "0.0.0.0" ∧ runConfig.port = 8080 ∧
    (serviceStep s path method now).1 = s ∧
    (serviceStep s path method now).2 = (serviceStep s2 path method now).2 :=
  ⟨rfl, rfl, rfl, rfl⟩

/-- C8: the claim says any method other than GET on `/time` is never
dispatched to the view and is answered 405. Flask automatically serves
`HEAD` through the `GET` view: a `HEAD /time` request runs the view and
yields status 200, not 405. -/
theorem head_request_runs_view :
    (dispatch "/time" "HEAD" frozen2030).1 = true ∧
    (dispatch "/time" "HEAD" frozen2030).2.status = 200 ∧
    (dispatch "/time" "HEAD" frozen2030).2.status ≠ 405 := by
  refine ⟨rfl, rfl, by decide⟩

/-- C8 (amended): a request to `/time` with a method other than GET,
HEAD and OPTIONS (the two methods Flask registers automatically next to
the declared GET) is not dispatched to the view and is answered with the
framework's 405 response. -/
theorem non_registered_method_405 (method : String) (now : DateTime)
    (h1 : method ≠ "GET") (h2 : method ≠ "HEAD") (h3 : method ≠ "OPTIONS") :
    (dispatch "/time" method now).1 = false ∧
    (dispatch "/time" method now).2 = methodNotAllowedResponse ∧
    (dispatch "/time" method now).2.status = 405 := by
  have hcond : ¬(method = "GET" ∨ method = "HEAD") := by
    intro hor
    cases hor with
    | inl h => exact h1 h
    | inr h => exact h2 h
  simp only [dispatch, if_pos rfl, if_neg hcond, if_neg h3]
  exact ⟨rfl, rfl, rfl⟩

/-- Witness for C8's amended statement at the concrete request
`POST /time`. -/
theorem non_registered_method_405_witness :
    (("POST" : String) ≠ "GET" ∧ ("POST" : String) ≠ "HEAD" ∧
     ("POST" : String) ≠ "OPTIONS") ∧
    ((dispatch "/time" "POST" frozen2030).1 = false ∧
     (dispatch "/time" "POST" frozen2030).2 = methodNotAllowedResponse ∧
     (dispatch "/time" "POST" frozen2030).2.status = 405) :=
  ⟨⟨by decide, by decide, by decide⟩,
   non_registered_method_405 "POST" frozen2030 (by decide) (by decide) (by decide)⟩

end TimeService

namespace AsciiDraw

/-- C9: for every width ≥ 3, height ≥ 3 and drawing character, the
rendering loop prints exactly `height` lines of exactly `width`
characters, and the character at row `j`, column `i` is the drawing
character exactly on the border (first or last row, first or last
column) and a space elsewhere. -/
theorem draw_rectangle_hollow_border (width height : Nat) (ch : Char)
    (hw : 3 ≤ width) (hh : 3 ≤ height) :
    (render width height ch).length = height ∧
    ∀ j, j < height → ∃ row : List Char,
      (render width height ch)[j]? = some row ∧
      row.length = width ∧
      ∀ i, i < width →
        row[i]? = some (if j = 0 ∨ j = height - 1 ∨ i = 0 ∨ i = width - 1
                        then ch else ' ') := by
  constructor
  · simp [render]
  · intro j hj
    refine ⟨(List.range width).map (fun i =>
      if j = 0 ∨ j = height - 1 ∨ i = 0 ∨ i = width - 1 then ch else ' '),
      ?_, ?_, ?_⟩
    · rw [render, List.getElem?_map, List.getElem?_range hj]
      rfl
    · simp
    · intro i hi
      rw [List.getElem?_map, List.getElem?_range hi]
      rfl

/-- Witness for C9 at the concrete call with width 3, height 3 and the
character star. -/
theorem draw_rectangle_hollow_border_witness :
    (3 ≤ 3 ∧ 3 ≤ 3) ∧ (render 3 3 '*').length = 3 :=
  ⟨⟨by decide, by decide⟩,
   (draw_rectangle_hollow_border 3 3 '*' (by decide) (by decide)).1⟩

end AsciiDraw

namespace DbAccess

/-- C10: starting from a connection with no transaction in progress,
`insert_employee` commits the inserted row and returns `True` exactly
when the INSERT succeeds; on a database error at either the execute or
the commit step it rolls the transaction back and returns `False`,
leaving the `employees` table exactly as it was. -/
theorem insert_employee_commit_or_rollback (c : Conn)
    (name department : String) (h : c.pending = c.committed) :
    insert_employee c name department DBOutcome.ok =
      ({ committed := c.committed ++ [⟨name, department⟩],
         pending := c.committed ++ [⟨name, department⟩] }, true) ∧
    ∀ out : DBOutcome, out ≠ DBOutcome.ok →
      insert_employee c name department out = (c, false) := by
  obtain ⟨cc, cp⟩ := c
  have h2 : cp = cc := h
  subst h2
  constructor
  · rfl
  · intro out hout
    cases out with
    | ok => exact absurd rfl hout
    | failExec => rfl
    | failCommit => rfl

/-- Witness for C10 on the empty table with a concrete row and a failing
execute step. -/
theorem insert_employee_commit_or_rollback_witness :
    (Conn.mk [] []).pending = (Conn.mk [] []).committed ∧
    insert_employee (Conn.mk [] []) "Alice" "Engineering" DBOutcome.failExec =
      (Conn.mk [] [], false) :=
  ⟨rfl, (insert_employee_commit_or_rollback (Conn.mk [] []) "Alice" "Engineering"
      rfl).2 DBOutcome.failExec (by decide)⟩

end DbAccess
